import Mathlib

/-!
Verification of the PromptGen.API prompt-synthesis core (NovelVisions).

This file shallowly embeds the algorithmic core of the repository's
prompt-generation service in Lean 4 and proves (or refutes) the frozen
specification claims about it:

* `core/generators/base_generator.py` — shared prompt truncation;
* `core/generators/midjourney_gen.py` — Midjourney directive formatting;
* `core/engines/style_engine.py` — style application and combination;
* `core/engines/consistency_engine.py` — feature-value compatibility;
* `core/templates/template_engine.py` — template filling and cleanup;
* `models/domain/book_context.py` — entity profiles and the book context.

Python strings are modelled as Lean `String`/`List Char`; Python `float`
comparisons with the constants 0.7/0.8/0.6/0.15/0.3/2 are modelled as exact
rational (or scaled-integer) comparisons.  Remarks at each use justify why
the double-precision products coincide with the exact rationals for every
value the code actually computes with (the configured prompt limits
380/2000/4000/6000 and the preset segment counts).
-/

namespace NovelVisions

/-- Left brace character, kept out of string literals. -/
def lbrace : Char := Char.ofNat 123

/-- Right brace character, kept out of string literals. -/
def rbrace : Char := Char.ofNat 125

/-- The whitespace characters stripped by Python `str.strip()` / matched by
regex `\s` (ASCII range; the prompts handled by the service are ASCII). -/
def isPyWs (c : Char) : Bool :=
  c = ' ' || c = '\t' || c = '\n' || c = '\r' || c = '\x0b' || c = '\x0c'

/-- Python `str.strip()`: drop leading and trailing whitespace. -/
def pyStrip (l : List Char) : List Char :=
  ((l.dropWhile isPyWs).reverse.dropWhile isPyWs).reverse

/-- Python `str.rfind(c)`: the index of the last occurrence of `c`, with
`none` standing for Python's `-1` sentinel.  Computed by the left-to-right
recursion that mirrors how the embedding is later unfolded. -/
def lastIdxOf (c : Char) : List Char → Option Nat
  | [] => none
  | a :: rest =>
    match lastIdxOf c rest with
    | some i => some (i + 1)
    | none => if a = c then some 0 else none

/-- The guard `idx > (num/10) * maxLen` used by `BaseGenerator.truncate`,
with `none` (Python `-1`) never passing.  The Python source compares
`last_comma > self.max_length * 0.7` (resp. `0.8`) in double precision; for
each configured `max_prompt_length` (380, 2000, 4000 and 6000) the double
products `max * 0.7` and `max * 0.8` round to exactly `7*max/10` and
`8*max/10`, so the scaled-integer comparison below is exact. -/
def cutCond (idx : Option Nat) (num maxLen : Nat) : Bool :=
  match idx with
  | some i => decide (10 * i > num * maxLen)
  | none => false

/-- `BaseGenerator.truncate` from `core/generators/base_generator.py`
(list-of-characters core).  If the prompt fits, it is returned unchanged;
otherwise the prefix of length `maxLen` is cut at the last comma when that
comma sits past 70% of `maxLen`, else at the last space when it sits past
80% of `maxLen`, else kept whole — and the chosen cut is `.strip()`-ped. -/
def truncList (maxLen : Nat) (p : List Char) : List Char :=
  if p.length ≤ maxLen then p
  else if cutCond (lastIdxOf ',' (p.take maxLen)) 7 maxLen then
    pyStrip ((p.take maxLen).take ((lastIdxOf ',' (p.take maxLen)).getD 0))
  else if cutCond (lastIdxOf ' ' (p.take maxLen)) 8 maxLen then
    pyStrip ((p.take maxLen).take ((lastIdxOf ' ' (p.take maxLen)).getD 0))
  else
    pyStrip (p.take maxLen)

/-- `BaseGenerator.truncate`, on `String`. -/
def truncate (maxLen : Nat) (s : String) : String :=
  (truncList maxLen s.data).asString

/-- The index of the last occurrence of `c` in `l`, written the way the
specification reads: the largest position of `l` holding `c`. -/
def lastOccurrence (c : Char) (l : List Char) : Option Nat :=
  ((List.range l.length).filter (fun i => l.get? i = some c)).getLast?

/-- Spec-side guard: the last occurrence of `c` in `l` lies strictly past
the fraction `num/10` of `maxLen`. -/
def specCutCond (c : Char) (l : List Char) (num maxLen : Nat) : Bool :=
  match lastOccurrence c l with
  | some i => decide (10 * i > num * maxLen)
  | none => false

/-- The shared truncation algorithm exactly as the specification claim C1
states it: take the prefix of length `maxLen`; if the last comma of the
prefix sits past 0.7·maxLen, cut at that comma; else if the last space sits
past 0.8·maxLen, cut at that space; else hard-cut at `maxLen`.  No
stripping — this is the claimed algorithm, used to exhibit the divergence
from the code. -/
def sharedCutSpec (maxLen : Nat) (p : List Char) : List Char :=
  if specCutCond ',' (p.take maxLen) 7 maxLen then
    (p.take maxLen).take ((lastOccurrence ',' (p.take maxLen)).getD 0)
  else if specCutCond ' ' (p.take maxLen) 8 maxLen then
    (p.take maxLen).take ((lastOccurrence ' ' (p.take maxLen)).getD 0)
  else
    p.take maxLen

/-- The shared truncation algorithm as amended: identical branch selection,
but every branch's result is additionally stripped of leading and trailing
whitespace (Python `str.strip()`), as the code does. -/
def sharedCutSpecStripped (maxLen : Nat) (p : List Char) : List Char :=
  if specCutCond ',' (p.take maxLen) 7 maxLen then
    pyStrip ((p.take maxLen).take ((lastOccurrence ',' (p.take maxLen)).getD 0))
  else if specCutCond ' ' (p.take maxLen) 8 maxLen then
    pyStrip ((p.take maxLen).take ((lastOccurrence ' ' (p.take maxLen)).getD 0))
  else
    pyStrip (p.take maxLen)

/-- The subset of `GeneratorConfig` fields the verified claims depend on,
from `core/generators/base_generator.py` (the capability lists, tag lists
and parameter bags of the four strategies are embedded separately where a
claim needs them). -/
structure GeneratorConfigM where
  modelName : String
  displayName : String
  maxPromptLength : Nat
  defaultAspectRatio : String
  supportsNegative : Bool
  deriving DecidableEq, Repr

/-- `DalleGenerator._get_config` (`core/generators/dalle_gen.py`). -/
def dalleConfig : GeneratorConfigM :=
  { modelName := "dalle3", displayName := "DALL-E 3", maxPromptLength := 4000
    defaultAspectRatio := "1:1", supportsNegative := false }

/-- `MidjourneyGenerator._get_config` (`core/generators/midjourney_gen.py`). -/
def midjourneyConfig : GeneratorConfigM :=
  { modelName := "midjourney", displayName := "Midjourney", maxPromptLength := 6000
    defaultAspectRatio := "16:9", supportsNegative := true }

/-- `SDGenerator._get_config` (`core/generators/sd_gen.py`). -/
def sdConfig : GeneratorConfigM :=
  { modelName := "stable-diffusion", displayName := "Stable Diffusion"
    maxPromptLength := 380, defaultAspectRatio := "1:1", supportsNegative := true }

/-- `FluxGenerator._get_config` (`core/generators/flux_gen.py`). -/
def fluxConfig : GeneratorConfigM :=
  { modelName := "flux", displayName := "Flux", maxPromptLength := 2000
    defaultAspectRatio := "1:1", supportsNegative := false }

/-- The four generator strategies registered by the factory. -/
def generatorConfigs : List GeneratorConfigM :=
  [dalleConfig, midjourneyConfig, sdConfig, fluxConfig]

/-- The concrete over-long prompt used to separate `truncate` from the
claimed unstripped shared algorithm: a leading space followed by 380 `a`s
(length 381, exceeding the Stable Diffusion limit of 380). -/
def c1Prompt : List Char := ' ' :: List.replicate 380 'a'

/-- Python `sep.join(xs)`. -/
def joinSep (sep : String) : List String → String
  | [] => ""
  | [x] => x
  | x :: y :: rest => x ++ sep ++ joinSep sep (y :: rest)

/-- Python `" ".join`. -/
def joinSpace (xs : List String) : String := joinSep " " xs

/-- Python `", ".join`. -/
def joinComma (xs : List String) : String := joinSep ", " xs

/-- Python `str.lower()` (ASCII case mapping; the embedded catalog strings
are ASCII). -/
def strLower (s : String) : String := (s.data.map Char.toLower).asString

/-- Python `str.split(sep)` core, fuel-structured so the kernel can
evaluate it; leftmost, non-overlapping matches, keeping empty chunks.  The
fuel never runs out when it starts at the input length (each step consumes
at least one character). -/
def splitSepFuel (sep : List Char) : Nat → List Char → List (List Char)
  | 0, s => [s]
  | _ + 1, [] => [[]]
  | fuel + 1, c :: rest =>
    if sep ≠ [] ∧ sep.isPrefixOf (c :: rest) then
      [] :: splitSepFuel sep fuel ((c :: rest).drop sep.length)
    else
      match splitSepFuel sep fuel rest with
      | [] => [[c]]
      | g :: gs => (c :: g) :: gs

/-- Python `s.split(sep)` on `String`. -/
def splitSepStr (sep s : String) : List String :=
  (splitSepFuel sep.data s.data.length s.data).map List.asString

/-- First-position association lookup: Python `dict[key]` as `Option`
(`none` for `key not in dict`). -/
def assocFind (k : String) (m : List (String × α)) : Option α :=
  (m.find? (fun p => p.1 = k)).map Prod.snd

/-- Python `dict.get(key, dflt)`. -/
def assocFindD (m : List (String × α)) (k : String) (dflt : α) : α :=
  (assocFind k m).getD dflt

/-- `StyleCategory` from `core/engines/style_engine.py`. -/
inductive StyleCategory where
  | artMovements
  | photography
  | illustration
  | render3d
  | experimental
  | cultural
  | historical
  | genre
  deriving DecidableEq, Repr

/-- `StylePreset` from `core/engines/style_engine.py`.  The fields
`prompt_prefix` / `prompt_suffix` are named `promptPrefixText` /
`promptSuffixText` here. -/
structure StylePreset where
  id : String
  name : String
  category : StyleCategory
  description : String
  promptPrefixText : String
  promptSuffixText : String
  negativeAdditions : List String
  recommendedModels : List String
  intensityDefault : ℚ := 1
  tags : List String
  deriving DecidableEq, Repr

/-- Builtin preset `"impressionism"` (`StyleEngine._load_builtin_presets`). -/
def impressionismPreset : StylePreset :=
  { id := "impressionism", name := "Impressionism"
    category := StyleCategory.artMovements
    description := "Soft brushstrokes, emphasis on light and color"
    promptPrefixText := ""
    promptSuffixText := "impressionist painting style, soft visible brushstrokes, dappled light, vibrant colors, Claude Monet inspired, plein air aesthetic"
    negativeAdditions := ["sharp lines", "photorealistic", "digital"]
    recommendedModels := ["midjourney", "stable-diffusion"]
    tags := ["painting", "classic", "soft"] }

/-- Builtin preset `"surrealism"` (`StyleEngine._load_builtin_presets`). -/
def surrealismPreset : StylePreset :=
  { id := "surrealism", name := "Surrealism"
    category := StyleCategory.artMovements
    description := "Dreamlike, impossible, subconscious imagery"
    promptPrefixText := ""
    promptSuffixText := "surrealist art, dreamlike quality, impossible geometry, Salvador Dali inspired, subconscious imagery, melting forms, unexpected juxtapositions"
    negativeAdditions := ["realistic", "ordinary", "mundane"]
    recommendedModels := ["midjourney", "dalle3"]
    tags := ["dream", "abstract", "artistic"] }

/-- Builtin preset `"baroque"` (`StyleEngine._load_builtin_presets`). -/
def baroquePreset : StylePreset :=
  { id := "baroque", name := "Baroque"
    category := StyleCategory.artMovements
    description := "Dramatic, rich, ornate classical style"
    promptPrefixText := ""
    promptSuffixText := "baroque painting, dramatic chiaroscuro lighting, rich deep colors, ornate details, Caravaggio inspired, theatrical composition, gold accents"
    negativeAdditions := ["minimalist", "modern", "simple"]
    recommendedModels := ["midjourney", "stable-diffusion"]
    tags := ["classical", "dramatic", "ornate"] }

/-- Builtin preset `"abstract"` (`StyleEngine._load_builtin_presets`). -/
def abstractPreset : StylePreset :=
  { id := "abstract", name := "Abstract"
    category := StyleCategory.cultural
    description := "Non-representational, shapes and colors"
    promptPrefixText := "abstract art,"
    promptSuffixText := "non-representational, shapes and colors, emotional expression, Kandinsky inspired, bold composition, modern art"
    negativeAdditions := ["realistic", "figurative", "photographic"]
    recommendedModels := ["midjourney", "stable-diffusion"]
    tags := ["modern", "artistic", "expressive"] }

/-- A slice of the builtin preset catalog, embedded verbatim from the
source.  `StyleEngine` holds a `Dict[str, StylePreset]` built from 40+
builtin presets plus arbitrary custom presets loaded from disk, so every
engine operation below is parameterised over the loaded preset map; the
four entries here are the ones the claims and their witnesses touch. -/
def builtinPresetsSample : List (String × StylePreset) :=
  [("impressionism", impressionismPreset), ("surrealism", surrealismPreset),
   ("baroque", baroquePreset), ("abstract", abstractPreset)]

/-- `StyleEngine.apply_style` from `core/engines/style_engine.py`.
Intensity is modelled as an exact rational (the Python float thresholds
0.8, 0.5 and 0.3 are decimal literals compared directly).  The band-2
count `int(len(suffix_parts) * 0.6)` is modelled as `3 * n / 5` (natural
floor division): for every `n ≤ 40` — far above any preset's segment
count — `int(n * 0.6)` in double precision equals `3 * n // 5`. -/
def applyStyle (presets : List (String × StylePreset)) (prompt sid : String)
    (intensity : ℚ) : String :=
  match assocFind sid presets with
  | none => prompt
  | some style =>
    let suffixParts := splitSepStr ", " style.promptSuffixText
    let usedSuffix :=
      if intensity ≥ 4/5 then style.promptSuffixText
      else if intensity ≥ 1/2 then
        joinComma (suffixParts.take (max 2 (3 * suffixParts.length / 5)))
      else if intensity ≥ 3/10 then
        joinComma (suffixParts.take (min 3 suffixParts.length))
      else suffixParts.headD ""
    let parts :=
      (if style.promptPrefixText ≠ "" then [style.promptPrefixText] else [])
        ++ [prompt]
        ++ (if usedSuffix ≠ "" then [usedSuffix] else [])
    joinSpace parts

/-- How many comma-separated suffix segments each intensity band keeps,
as the amended claim states it (`none` = the full suffix): the specified
banding with the band-2 count as `floor(0.6 × partCount)` — the code's
`int(...)` truncation — rather than the claimed `ceil`. -/
def bandKeepCount (n : Nat) (intensity : ℚ) : Option Nat :=
  if intensity ≥ 4/5 then none
  else if intensity ≥ 1/2 then some (max 2 (Nat.floor ((3 : ℚ) / 5 * n)))
  else if intensity ≥ 3/10 then some (min 3 n)
  else some 1

/-- How many suffix segments each band keeps per claim C3 as stated,
with band 2 using `ceil(0.6 × partCount)`. -/
def bandKeepCountClaimed (n : Nat) (intensity : ℚ) : Option Nat :=
  if intensity ≥ 4/5 then none
  else if intensity ≥ 1/2 then some (max 2 (Int.toNat ⌈(3 : ℚ) / 5 * n⌉))
  else if intensity ≥ 3/10 then some (min 3 n)
  else some 1

/-- Style application as the amended claim describes it: look the style
up, keep the banded number of suffix segments (floor in band 2), and join
prefix, text and kept segments. -/
def applyStyleSpec (presets : List (String × StylePreset)) (prompt sid : String)
    (intensity : ℚ) : String :=
  match assocFind sid presets with
  | none => prompt
  | some style =>
    let suffixParts := splitSepStr ", " style.promptSuffixText
    let usedSuffix :=
      match bandKeepCount suffixParts.length intensity with
      | none => style.promptSuffixText
      | some k => joinComma (suffixParts.take k)
    let parts :=
      (if style.promptPrefixText ≠ "" then [style.promptPrefixText] else [])
        ++ [prompt]
        ++ (if usedSuffix ≠ "" then [usedSuffix] else [])
    joinSpace parts

/-- Style application exactly as claim C3 states it (band 2 keeps
`ceil(0.6 × partCount)` segments, minimum 2). -/
def applyStyleClaimed (presets : List (String × StylePreset)) (prompt sid : String)
    (intensity : ℚ) : String :=
  match assocFind sid presets with
  | none => prompt
  | some style =>
    let suffixParts := splitSepStr ", " style.promptSuffixText
    let usedSuffix :=
      match bandKeepCountClaimed suffixParts.length intensity with
      | none => style.promptSuffixText
      | some k => joinComma (suffixParts.take k)
    let parts :=
      (if style.promptPrefixText ≠ "" then [style.promptPrefixText] else [])
        ++ [prompt]
        ++ (if usedSuffix ≠ "" then [usedSuffix] else [])
    joinSpace parts

/-- One iteration of the `combine_styles` loop
(`core/engines/style_engine.py`): the accumulator carries
`(combined_parts, combined_prefix)`; unknown ids and normalized weights
below 0.15 are skipped; a kept style contributes its first
`max(1, int(partCount * weight * 2))` suffix segments, and its prefix when
the prefix is non-empty and the weight exceeds 0.3.  `int(...)` is
truncation toward zero; in the branch where it is evaluated the weight is
at least 0.15, so the product is non-negative and `Nat.floor` agrees. -/
def combineStep (presets : List (String × StylePreset))
    (acc : List String × List String) (sw : String × ℚ) :
    List String × List String :=
  match assocFind sw.1 presets with
  | none => acc
  | some style =>
    if sw.2 < 3/20 then acc
    else
      let suffixParts := splitSepStr ", " style.promptSuffixText
      let numParts := max 1 (Nat.floor ((suffixParts.length : ℚ) * sw.2 * 2))
      (acc.1 ++ suffixParts.take numParts,
       acc.2 ++ (if style.promptPrefixText ≠ "" ∧ sw.2 > 3/10
                 then [style.promptPrefixText] else []))

/-- The case-insensitive first-seen de-duplication loop of
`combine_styles`: `seen` is the set of lowercased segments already kept. -/
def dedupCIGo (seen : List String) : List String → List String
  | [] => []
  | x :: rest =>
    if strLower x ∈ seen then dedupCIGo seen rest
    else x :: dedupCIGo (strLower x :: seen) rest

/-- `StyleEngine.combine_styles` from `core/engines/style_engine.py`.
Weights are modelled as exact rationals; the Python code divides by
`sum(weights)`, so its behaviour is only defined when that sum is
non-zero (division by zero raises), which the theorems assume. -/
def combineStyles (presets : List (String × StylePreset)) (prompt : String)
    (styleIds : List String) (weights : List ℚ) : String :=
  if styleIds = [] then prompt
  else
    let total := weights.sum
    let normalized := weights.map (· / total)
    let folded := (styleIds.zip normalized).foldl (combineStep presets) ([], [])
    let uniqueParts := dedupCIGo [] folded.1
    let resultParts :=
      (if folded.2 ≠ [] then [joinSpace folded.2] else [])
        ++ [prompt]
        ++ (if uniqueParts ≠ [] then [joinComma uniqueParts] else [])
    joinSpace resultParts

/-- The suffix segments one weighted style contributes, as the claim
describes them: nothing when the id is unknown or the normalized weight is
below 0.15, else the first `max(1, floor(partCount × weight × 2))`
segments of its suffix. -/
def specContribution (presets : List (String × StylePreset)) (sw : String × ℚ) :
    List String :=
  match assocFind sw.1 presets with
  | none => []
  | some style =>
    if sw.2 < 3/20 then []
    else
      let suffixParts := splitSepStr ", " style.promptSuffixText
      suffixParts.take (max 1 (Nat.floor ((suffixParts.length : ℚ) * sw.2 * 2)))

/-- The prefix one weighted style contributes, as the claim describes it:
present only for a known style with a non-empty prefix, normalized weight
at least 0.15 (otherwise the style is dropped entirely) and strictly more
than 0.3. -/
def specPrefixOf (presets : List (String × StylePreset)) (sw : String × ℚ) :
    Option String :=
  match assocFind sw.1 presets with
  | none => none
  | some style =>
    if sw.2 < 3/20 then none
    else if style.promptPrefixText ≠ "" ∧ sw.2 > 3/10 then
      some style.promptPrefixText
    else none

/-- Case-insensitive first-seen de-duplication as the claim words it: keep
each segment and delete every later segment with the same lowercase form. -/
def dedupCISpec : List String → List String
  | [] => []
  | x :: rest =>
    x :: dedupCISpec (rest.filter (fun y => strLower y ≠ strLower x))
termination_by l => l.length
decreasing_by
  simp only [List.length_cons]
  exact Nat.lt_succ_of_le (List.length_filter_le _ _)

/-- Style combination as the claim describes it: normalize the weights,
collect each surviving style's segment contribution in order,
de-duplicate case-insensitively keeping first occurrences, and join
prefixes, original text and unique segments. -/
def combineStylesSpec (presets : List (String × StylePreset)) (prompt : String)
    (styleIds : List String) (weights : List ℚ) : String :=
  if styleIds = [] then prompt
  else
    let normalized := weights.map (· / weights.sum)
    let pairs := styleIds.zip normalized
    let uniqueParts := dedupCISpec (pairs.flatMap (specContribution presets))
    let prefixes := pairs.filterMap (specPrefixOf presets)
    let resultParts :=
      (if prefixes ≠ [] then [joinSpace prefixes] else [])
        ++ [prompt]
        ++ (if uniqueParts ≠ [] then [joinComma uniqueParts] else [])
    joinSpace resultParts

/-- Python `str.split()` with no separator (`consistency_engine.py` uses it
for token sets): split on whitespace runs, dropping empty chunks.  `cur`
accumulates the current word reversed. -/
def pyWordsGo (cur : List Char) : List Char → List (List Char)
  | [] => if cur = [] then [] else [cur.reverse]
  | c :: rest =>
    if isPyWs c then
      if cur = [] then pyWordsGo [] rest
      else cur.reverse :: pyWordsGo [] rest
    else pyWordsGo (c :: cur) rest

/-- First-seen de-duplication with ordinary string equality, used to model
Python `set(...)` of words as a duplicate-free list. -/
def dedupStr (seen : List String) : List String → List String
  | [] => []
  | x :: rest =>
    if x ∈ seen then dedupStr seen rest else x :: dedupStr (x :: seen) rest

/-- The lowercase whitespace-token set of a feature value
(`value.lower().split()` then `set(...)`), as a duplicate-free list. -/
def tokenSet (v : String) : List String :=
  dedupStr [] ((pyWordsGo [] (strLower v).data).map List.asString)

/-- Size of the intersection of two token sets (`len(w1 & w2)`). -/
def tokenOverlap (v1 v2 : String) : Nat :=
  ((tokenSet v1).filter (fun w => w ∈ tokenSet v2)).length

/-- Size of the union of two token sets (`len(w1 | w2)`). -/
def tokenTotal (v1 v2 : String) : Nat :=
  (tokenSet v1 ++ (tokenSet v2).filter (fun w => w ∉ tokenSet v1)).length

/-- `ConsistencyEngine._are_compatible` from
`core/engines/consistency_engine.py`: case-insensitively equal values are
compatible; otherwise the whitespace-token Jaccard similarity must exceed
0.5, with an empty union counting as compatible. -/
def areCompatible (v1 v2 : String) : Bool :=
  if strLower v1 = strLower v2 then true
  else if tokenTotal v1 v2 = 0 then true
  else decide ((tokenOverlap v1 v2 : ℚ) / (tokenTotal v1 v2) > 1/2)

/-- Python truthiness of an `Optional[str]`: `None` and `""` are falsy. -/
def optTruthy (o : Option String) : Bool := o.getD "" ≠ ""

/-- A fragment part contributed by a truthy optional attribute. -/
def optPart (o : Option String) : List String :=
  if optTruthy o then [o.getD ""] else []

/-- A fragment part contributed by a truthy optional attribute, decorated. -/
def optPartMap (o : Option String) (f : String → String) : List String :=
  if optTruthy o then [f (o.getD "")] else []

/-- Naive `datetime.utcnow()` values (`models/domain/book_context.py`
timestamps).  `datetime.isoformat` is injective on naive datetimes and
`datetime.fromisoformat` inverts it exactly, so the cache representation
of a timestamp is modelled by the timestamp value itself rather than by
re-implementing the ISO-8601 text codec. -/
structure PyDateTime where
  year : Nat
  month : Nat
  day : Nat
  hour : Nat
  minute : Nat
  second : Nat
  microsecond : Nat
  deriving DecidableEq, Repr

/-- `CharacterProfile` from `models/domain/book_context.py`. -/
structure CharacterProfile where
  name : String
  bookId : String
  gender : Option String := none
  age : Option String := none
  height : Option String := none
  build : Option String := none
  appearance : String := ""
  hair : Option String := none
  eyes : Option String := none
  skin : Option String := none
  facialFeatures : Option String := none
  clothing : Option String := none
  accessories : Option String := none
  distinguishingFeatures : Option String := none
  basePrompt : Option String := none
  generationCount : Nat := 0
  isEstablished : Bool := false
  deriving DecidableEq, Repr

/-- The attribute-assembled parts of
`CharacterProfile.to_prompt_fragment`. -/
def charParts (c : CharacterProfile) : List String :=
  (if c.name ≠ "" then [c.name] else [])
    ++ optPart c.age
    ++ optPart c.gender
    ++ optPartMap c.build (fun s => s ++ " build")
    ++ optPartMap c.hair (fun s => s ++ " hair")
    ++ optPartMap c.eyes (fun s => s ++ " eyes")
    ++ optPartMap c.skin (fun s => s ++ " skin")
    ++ optPart c.distinguishingFeatures
    ++ optPartMap c.clothing (fun s => "wearing " ++ s)

/-- `CharacterProfile.to_prompt_fragment`: a truthy `base_prompt` is
returned as-is; otherwise attributes are assembled, a long (> 20 chars)
`appearance` overrides them, and an empty part list falls back to the
name. -/
def CharacterProfile.toPromptFragment (c : CharacterProfile) : String :=
  if optTruthy c.basePrompt then c.basePrompt.getD ""
  else
    let parts := charParts c
    if c.appearance ≠ "" ∧ c.appearance.length > 20 then c.appearance
    else if parts ≠ [] then joinComma parts
    else c.name

/-- `SceneContext` from `models/domain/book_context.py`. -/
structure SceneContext where
  name : String
  bookId : String
  description : String := ""
  locationType : Option String := none
  settingType : Option String := none
  atmosphere : Option String := none
  mood : Option String := none
  lighting : Option String := none
  timeOfDay : Option String := none
  weather : Option String := none
  keyElements : List String := []
  basePrompt : Option String := none
  isEstablished : Bool := false
  deriving DecidableEq, Repr

/-- The attribute-assembled parts of `SceneContext.to_prompt_fragment`. -/
def sceneParts (s : SceneContext) : List String :=
  optPart s.settingType
    ++ (if s.name ≠ "" then [s.name] else [])
    ++ optPartMap s.atmosphere (fun a => a ++ " atmosphere")
    ++ optPart s.lighting
    ++ optPart s.timeOfDay
    ++ optPartMap s.weather (fun w => w ++ " weather")
    ++ (if s.keyElements ≠ [] then
          ["with " ++ joinComma (s.keyElements.take 3)] else [])

/-- `SceneContext.to_prompt_fragment`. -/
def SceneContext.toPromptFragment (s : SceneContext) : String :=
  if optTruthy s.basePrompt then s.basePrompt.getD ""
  else
    let parts := sceneParts s
    if s.description ≠ "" ∧ s.description.length > 50 then s.description
    else if parts ≠ [] then joinComma parts
    else s.name

/-- `ObjectContext` from `models/domain/book_context.py`. -/
structure ObjectContext where
  name : String
  bookId : String
  appearance : String := ""
  materials : Option String := none
  colors : List String := []
  size : Option String := none
  details : Option String := none
  effects : Option String := none
  basePrompt : Option String := none
  isEstablished : Bool := false
  deriving DecidableEq, Repr

/-- The attribute-assembled parts of `ObjectContext.to_prompt_fragment`. -/
def objectParts (o : ObjectContext) : List String :=
  [o.name]
    ++ optPartMap o.materials (fun m => "made of " ++ m)
    ++ (if o.colors ≠ [] then [joinSep " and " (o.colors.take 2)] else [])
    ++ optPart o.size
    ++ optPart o.details
    ++ optPart o.effects

/-- `ObjectContext.to_prompt_fragment`. -/
def ObjectContext.toPromptFragment (o : ObjectContext) : String :=
  if optTruthy o.basePrompt then o.basePrompt.getD ""
  else if o.appearance ≠ "" then o.appearance
  else joinComma (objectParts o)

/-- Python `dict[key] = value` on an insertion-ordered mapping: an
existing key is updated in place, a new key is appended. -/
def dictSet (m : List (String × α)) (k : String) (v : α) : List (String × α) :=
  if m.any (fun p => p.1 = k) then
    m.map (fun p => if p.1 = k then (k, v) else p)
  else m ++ [(k, v)]

/-- `BookContext` from `models/domain/book_context.py`: the per-book
aggregate of entity profiles.  The three Python dicts are insertion-ordered
string-keyed mappings, modelled as association lists (a genuine dict never
repeats a key, which the round-trip theorem assumes explicitly). -/
structure BookContext where
  bookId : String
  characters : List (String × CharacterProfile) := []
  scenes : List (String × SceneContext) := []
  objects : List (String × ObjectContext) := []
  defaultStyle : Option String := none
  defaultModel : String := "dalle3"
  createdAt : PyDateTime
  updatedAt : PyDateTime
  deriving DecidableEq, Repr

/-- `BookContext.get_character`: scan the mapping and return the first
profile whose key matches case-insensitively. -/
def BookContext.getCharacter (ctx : BookContext) (name : String) :
    Option CharacterProfile :=
  (ctx.characters.find? (fun p => strLower p.1 = strLower name)).map Prod.snd

/-- `BookContext.remove_character`: delete the exact (case-sensitive) key
if present, stamping `updated_at` with the current time `now`; report
whether anything was deleted. -/
def BookContext.removeCharacter (ctx : BookContext) (name : String)
    (now : PyDateTime) : Bool × BookContext :=
  if ctx.characters.any (fun p => p.1 = name) then
    (true, { ctx with characters := ctx.characters.eraseP (fun p => p.1 = name)
                      updatedAt := now })
  else (false, ctx)

/-- The serialized cache form of a `BookContext`
(`BookContext.to_dict`): entity profiles are themselves serialized
key-by-key into dicts carrying exactly the profile's fields, so the
per-profile dict is modelled by the profile record; timestamps are stored
through the lossless ISO codec (see `PyDateTime`). -/
structure BookContextData where
  bookId : String
  characters : List (String × CharacterProfile)
  scenes : List (String × SceneContext)
  objects : List (String × ObjectContext)
  defaultStyle : Option String
  defaultModel : String
  createdAt : PyDateTime
  updatedAt : PyDateTime
  deriving DecidableEq, Repr

/-- `BookContext.to_dict`. -/
def BookContext.toDict (ctx : BookContext) : BookContextData :=
  { bookId := ctx.bookId
    characters := ctx.characters
    scenes := ctx.scenes
    objects := ctx.objects
    defaultStyle := ctx.defaultStyle
    defaultModel := ctx.defaultModel
    createdAt := ctx.createdAt
    updatedAt := ctx.updatedAt }

/-- `BookContext.from_dict`: build a fresh context and re-insert every
serialized entity in iteration order (`context.characters[name] = ...`),
then restore the timestamps. -/
def BookContext.fromDict (d : BookContextData) : BookContext :=
  { bookId := d.bookId
    characters := d.characters.foldl (fun m p => dictSet m p.1 p.2) []
    scenes := d.scenes.foldl (fun m p => dictSet m p.1 p.2) []
    objects := d.objects.foldl (fun m p => dictSet m p.1 p.2) []
    defaultStyle := d.defaultStyle
    defaultModel := d.defaultModel
    createdAt := d.createdAt
    updatedAt := d.updatedAt }

/-- Python `str.replace(pat, rep)` (all leftmost non-overlapping
occurrences), fuel-structured for kernel evaluation; the placeholder
patterns built by the template engine are never empty, and the fuel
(initialised to the input length) never runs out. -/
def replaceFuel (pat rep : List Char) : Nat → List Char → List Char
  | 0, s => s
  | _ + 1, [] => []
  | fuel + 1, c :: rest =>
    if pat ≠ [] ∧ pat.isPrefixOf (c :: rest) then
      rep ++ replaceFuel pat rep fuel ((c :: rest).drop pat.length)
    else c :: replaceFuel pat rep fuel rest

/-- `PromptTemplate` from `core/templates/template_engine.py` (the fields
a fill depends on; `structure` is a Lean keyword, hence `structureText`). -/
structure PromptTemplateM where
  id : String
  name : String
  templateType : String
  description : String := ""
  structureText : String
  variableNames : List String := []
  defaults : List (String × String) := []
  deriving DecidableEq, Repr

/-- The merged variable map of `fill_template`: start from the template
defaults when `use_defaults` is set, then overlay the supplied variables
(`dict.update` keeps the position of overridden keys and appends new
ones). -/
def allVarsOf (t : PromptTemplateM) (vars : List (String × String))
    (useDefaults : Bool) : List (String × String) :=
  vars.foldl (fun m kv => dictSet m kv.1 kv.2)
    (if useDefaults then t.defaults.foldl (fun m kv => dictSet m kv.1 kv.2) []
     else [])

/-- The substitution loop of `fill_template`: for each merged variable,
replace every `{name}` occurrence with its value (a falsy value is
replaced by `""`, which is the same replacement). -/
def substituteVars (s : List Char) (av : List (String × String)) : List Char :=
  av.foldl
    (fun acc kv =>
      replaceFuel (lbrace :: kv.1.data ++ [rbrace]) kv.2.data acc.length acc)
    s

/-- Removal of leftover placeholders, the regex
`re.sub` of brace, one-or-more non-closing-brace characters, brace, with
the empty string: at each left brace, if the first right brace comes at
least two characters later the whole bracketed run is dropped; an
immediately-following right brace or a never-closed left brace does not
match and the character is kept. -/
def stripPhFuel : Nat → List Char → List Char
  | 0, s => s
  | _ + 1, [] => []
  | fuel + 1, c :: rest =>
    if c = lbrace then
      match rest.findIdx? (fun d => d = rbrace) with
      | some 0 => c :: stripPhFuel fuel rest
      | some (k + 1) => stripPhFuel fuel (rest.drop (k + 2))
      | none => c :: stripPhFuel fuel rest
    else c :: stripPhFuel fuel rest

/-- The comma cleanup `re.sub` of comma-whitespace-comma with a single
comma: one left-to-right pass; after each replacement scanning resumes
past the matched text, exactly as `re.sub` does (so a run of three commas
leaves a doubled comma behind). -/
def commaPassFuel : Nat → List Char → List Char
  | 0, s => s
  | _ + 1, [] => []
  | fuel + 1, c :: rest =>
    if c = ',' then
      match rest.dropWhile isPyWs with
      | ',' :: tail => ',' :: commaPassFuel fuel tail
      | _ => c :: commaPassFuel fuel rest
    else c :: commaPassFuel fuel rest

/-- The whitespace cleanup `re.sub` of one-or-more whitespace characters
with a single space: every maximal whitespace run becomes one space.
`inRun` records whether the previous character belonged to a run already
collapsed. -/
def wsPassGo (inRun : Bool) : List Char → List Char
  | [] => []
  | c :: rest =>
    if isPyWs c then
      if inRun then wsPassGo true rest
      else ' ' :: wsPassGo true rest
    else c :: wsPassGo false rest

/-- Python `str.strip(" ,")`: drop leading and trailing spaces and
commas. -/
def isSpaceComma (c : Char) : Bool := c = ' ' || c = ','

/-- Edge trimming of `fill_template` (`result.strip(' ,')`). -/
def stripEdges (l : List Char) : List Char :=
  ((l.dropWhile isSpaceComma).reverse.dropWhile isSpaceComma).reverse

/-- `TemplateEngine.fill_template` from
`core/templates/template_engine.py`: substitute the merged variables,
drop leftover `{...}` placeholders, collapse comma pairs, collapse
whitespace runs, trim edge separators. -/
def fillTemplate (t : PromptTemplateM) (vars : List (String × String))
    (useDefaults : Bool) : String :=
  let r1 := substituteVars t.structureText.data (allVarsOf t vars useDefaults)
  let r2 := stripPhFuel r1.length r1
  let r3 := commaPassFuel r2.length r2
  let r4 := wsPassGo false r3
  (stripEdges r4).asString

/-- The template used to refute claim C7's normalization promise: its
structure is the nine characters `x{a}, {b}, {c}, {d} {` — four
placeholders followed by a dangling left brace. -/
def c7Template : PromptTemplateM :=
  { id := "c7", name := "c7", templateType := "atmospheric"
    structureText := List.asString
      (['x', lbrace, 'a', rbrace, ',', ' ', lbrace, 'b', rbrace, ',', ' ',
        lbrace, 'c', rbrace, ',', ' ', lbrace, 'd', rbrace, ' ', lbrace])
    variableNames := ["a", "b", "c", "d"] }

/-- The variable map used with `c7Template`: every placeholder resolves to
the empty string. -/
def c7Vars : List (String × String) := [("a", ""), ("b", ""), ("c", ""), ("d", "")]

/-- The parameter bag accepted by `MidjourneyGenerator.format_prompt`
(`core/generators/midjourney_gen.py`).  A `none` / `false` field models a
key absent from the Python dict; values the code pushes through `str()`
(`version`, `quality`, `stylize`, `seed`, `sref`, `sw`, `cref`, `cw`) are
modelled as the rendered strings, and values the code pushes through
`int()` (`chaos`, `weird`, `repeat`) as integers. -/
structure MJParams where
  imageUrl : Option String := none
  aspect : Option String := none
  ar : Option String := none
  version : Option String := none
  quality : Option String := none
  stylize : Option String := none
  chaos : Option Int := none
  weird : Option Int := none
  seed : Option String := none
  sref : Option String := none
  sw : Option String := none
  cref : Option String := none
  cw : Option String := none
  negative : Option String := none
  noList : Option String := none
  tile : Bool := false
  repeatCount : Option Int := none
  stylePreset : Option String := none
  raw : Bool := false
  deriving DecidableEq, Repr

/-- `MidjourneyGenerator.ASPECT_RATIOS`. -/
def mjAspectRatios : List (String × String) :=
  [("square", "1:1"), ("portrait", "2:3"), ("landscape", "3:2"),
   ("wide", "16:9"), ("ultrawide", "21:9"), ("tall", "9:16"),
   ("poster", "2:3"), ("cinema", "2.39:1"), ("cinemascope", "2.35:1"),
   ("instagram", "4:5"), ("instagram_story", "9:16"), ("twitter", "16:9"),
   ("facebook", "1.91:1"), ("pinterest", "2:3"), ("youtube", "16:9"),
   ("tiktok", "9:16"), ("phone", "9:19.5"), ("desktop", "16:10"),
   ("ultrawide_desktop", "21:9")]

/-- `MidjourneyGenerator.STYLE_PRESETS`. -/
def mjStylePresets : List (String × String) :=
  [("raw", "--style raw"), ("expressive", "--s 500"), ("balanced", "--s 100"),
   ("subtle", "--s 50"), ("artistic", "--s 750"), ("maximum", "--s 1000"),
   ("niji", "--niji 6"), ("niji_cute", "--niji 6 --style cute"),
   ("niji_scenic", "--niji 6 --style scenic"),
   ("niji_expressive", "--niji 6 --style expressive"),
   ("niji_original", "--niji 6 --style original")]

/-- `MidjourneyGenerator._get_config().default_parameters`: the model's
known defaults. -/
def mjDefaultParameters : List (String × String) :=
  [("version", "6.1"), ("quality", "1"), ("stylize", "100"), ("chaos", "0")]

/-- The image-prompt URL prepended by `format_prompt`. -/
def mjImagePart (ps : MJParams) : List String :=
  match ps.imageUrl with
  | some u => [u]
  | none => []

/-- The `--ar` directive: an `aspect` value is mapped through the alias
table (falling back to itself), else a raw `ar` value is used. -/
def mjArPart (ps : MJParams) : List String :=
  match ps.aspect with
  | some a => ["--ar " ++ assocFindD mjAspectRatios a a]
  | none =>
    match ps.ar with
    | some a => ["--ar " ++ a]
    | none => []

/-- The `--v` directive: appended for every supplied version except the
niji variants — including the default version 6.1. -/
def mjVersionPart (ps : MJParams) : List String :=
  match ps.version with
  | some v => if strLower v = "niji" ∨ strLower v = "niji6" then [] else ["--v " ++ v]
  | none => []

/-- The `--q` directive, omitted at the default value 1. -/
def mjQualityPart (ps : MJParams) : List String :=
  match ps.quality with
  | some q => if q ≠ "1" then ["--q " ++ q] else []
  | none => []

/-- The `--s` directive, omitted at the default value 100. -/
def mjStylizePart (ps : MJParams) : List String :=
  match ps.stylize with
  | some s => if s ≠ "100" then ["--s " ++ s] else []
  | none => []

/-- The `--c` directive, omitted when not positive (default 0). -/
def mjChaosPart (ps : MJParams) : List String :=
  match ps.chaos with
  | some c => if c > 0 then ["--c " ++ toString c] else []
  | none => []

/-- The `--weird` directive, omitted when not positive. -/
def mjWeirdPart (ps : MJParams) : List String :=
  match ps.weird with
  | some w => if w > 0 then ["--weird " ++ toString w] else []
  | none => []

/-- The `--seed` directive. -/
def mjSeedPart (ps : MJParams) : List String :=
  match ps.seed with
  | some s => ["--seed " ++ s]
  | none => []

/-- The `--sref` directive with its nested `--sw` weight. -/
def mjSrefPart (ps : MJParams) : List String :=
  match ps.sref with
  | some r =>
    ["--sref " ++ r] ++ (match ps.sw with
                         | some w => ["--sw " ++ w]
                         | none => [])
  | none => []

/-- The `--cref` directive with its nested `--cw` weight. -/
def mjCrefPart (ps : MJParams) : List String :=
  match ps.cref with
  | some r =>
    ["--cref " ++ r] ++ (match ps.cw with
                         | some w => ["--cw " ++ w]
                         | none => [])
  | none => []

/-- The `--no` directive: a truthy `negative` wins, else a truthy `no`. -/
def mjNoPart (ps : MJParams) : List String :=
  if optTruthy ps.negative then ["--no " ++ ps.negative.getD ""]
  else if optTruthy ps.noList then ["--no " ++ ps.noList.getD ""]
  else []

/-- The `--tile` flag. -/
def mjTilePart (ps : MJParams) : List String :=
  if ps.tile then ["--tile"] else []

/-- The `--repeat` directive, only for counts above 1. -/
def mjRepeatPart (ps : MJParams) : List String :=
  match ps.repeatCount with
  | some r => if r > 1 then ["--repeat " ++ toString r] else []
  | none => []

/-- The style-preset tail, for known preset names only. -/
def mjPresetPart (ps : MJParams) : List String :=
  match ps.stylePreset with
  | some p =>
    match assocFind p mjStylePresets with
    | some v => [v]
    | none => []
  | none => []

/-- `MidjourneyGenerator.format_prompt`: the prompt (preceded by an image
URL when given) followed by the directives in the source's fixed order;
raw mode appends `--style raw` unless the joined parts already contain
it; the joined string is finally `.strip()`-ped. -/
def mjFormatPrompt (prompt : String) (ps : MJParams) : String :=
  let base :=
    mjImagePart ps ++ [prompt] ++ mjArPart ps ++ mjVersionPart ps
      ++ mjQualityPart ps ++ mjStylizePart ps ++ mjChaosPart ps
      ++ mjWeirdPart ps ++ mjSeedPart ps ++ mjSrefPart ps ++ mjCrefPart ps
      ++ mjNoPart ps ++ mjTilePart ps ++ mjRepeatPart ps ++ mjPresetPart ps
  let parts :=
    base ++ (if ps.raw ∧ ¬ ("--style raw".data <:+: (joinSpace base).data)
             then ["--style raw"] else [])
  (pyStrip (joinSpace parts).data).asString

/-- The nine trailing inline directives claim C8 enumerates, in the
claimed fixed order, with the amended omission rules: quality, stylize
and chaos are dropped at their defaults (1, 100, 0), but a supplied
version is always emitted (unless it is a niji variant) — even at the
default 6.1. -/
def mjDirectivesSpec (ps : MJParams) : List (Option String) :=
  [(ps.aspect.map (fun a => "--ar " ++ assocFindD mjAspectRatios a a)),
   (ps.version.bind (fun v =>
      if strLower v = "niji" ∨ strLower v = "niji6" then none
      else some ("--v " ++ v))),
   (ps.quality.bind (fun q => if q = "1" then none else some ("--q " ++ q))),
   (ps.stylize.bind (fun s => if s = "100" then none else some ("--s " ++ s))),
   (ps.chaos.bind (fun c => if c ≤ 0 then none else some ("--c " ++ toString c))),
   (ps.seed.map (fun s => "--seed " ++ s)),
   (ps.sref.map (fun r => "--sref " ++ r)),
   (ps.cref.map (fun r => "--cref " ++ r)),
   (ps.negative.bind (fun n => if n = "" then none else some ("--no " ++ n)))]

/-- Midjourney formatting as the amended claim describes it: the text
followed by the surviving directives in the fixed order, whitespace-
stripped. -/
def mjFormatSpec (prompt : String) (ps : MJParams) : String :=
  (pyStrip (joinSpace (prompt :: (mjDirectivesSpec ps).filterMap id)).data).asString

/-- The nine directives as claim C8 states them: every directive whose
value equals the model's known default — version 6.1 included — is
omitted. -/
def mjDirectivesClaimed (ps : MJParams) : List (Option String) :=
  [(ps.aspect.map (fun a => "--ar " ++ assocFindD mjAspectRatios a a)),
   (ps.version.bind (fun v =>
      if strLower v = "niji" ∨ strLower v = "niji6" ∨ v = "6.1" then none
      else some ("--v " ++ v))),
   (ps.quality.bind (fun q => if q = "1" then none else some ("--q " ++ q))),
   (ps.stylize.bind (fun s => if s = "100" then none else some ("--s " ++ s))),
   (ps.chaos.bind (fun c => if c ≤ 0 then none else some ("--c " ++ toString c))),
   (ps.seed.map (fun s => "--seed " ++ s)),
   (ps.sref.map (fun r => "--sref " ++ r)),
   (ps.cref.map (fun r => "--cref " ++ r)),
   (ps.negative.bind (fun n => if n = "" then none else some ("--no " ++ n)))]

/-- Midjourney formatting exactly as claim C8 states it. -/
def mjFormatClaimed (prompt : String) (ps : MJParams) : String :=
  (pyStrip (joinSpace (prompt :: (mjDirectivesClaimed ps).filterMap id)).data).asString

/-- A parameter bag that only exercises the nine claimed directives. -/
def MJParams.directivesOnly (ps : MJParams) : Prop :=
  ps.imageUrl = none ∧ ps.ar = none ∧ ps.weird = none ∧ ps.sw = none
    ∧ ps.cw = none ∧ ps.noList = none ∧ ps.tile = false
    ∧ ps.repeatCount = none ∧ ps.stylePreset = none ∧ ps.raw = false

/-- The concrete parameter bag refuting claim C8: only the default
version 6.1 is supplied. -/
def c8Params : MJParams := { version := some "6.1" }

/-- A fixed timestamp standing in for `datetime.utcnow()` results. -/
def dt0 : PyDateTime :=
  { year := 2026, month := 1, day := 1, hour := 0, minute := 0, second := 0
    microsecond := 0 }

/-- Character profile stored under the all-caps key in the C10
counterexample context. -/
def harryUpper : CharacterProfile := { name := "HARRY", bookId := "b1" }

/-- Character profile stored under the mixed-case key in the C10
counterexample context. -/
def harryMixed : CharacterProfile := { name := "Harry", bookId := "b1" }

/-- A book context holding two distinct profiles under the
case-insensitively equal keys `"HARRY"` and `"Harry"`. -/
def ctx10 : BookContext :=
  { bookId := "b1", characters := [("HARRY", harryUpper), ("Harry", harryMixed)]
    createdAt := dt0, updatedAt := dt0 }

/-- A single-entry book context for the C10 witness. -/
def ctx10W : BookContext :=
  { bookId := "b1", characters := [("Harry", harryMixed)]
    createdAt := dt0, updatedAt := dt0 }

/-- A populated book context exercising the C9 round-trip witness. -/
def ctx9W : BookContext :=
  { bookId := "b2"
    characters := [("Luna", { name := "Luna", bookId := "b2", hair := some "silver blonde"
                              generationCount := 3, isEstablished := true }),
                   ("Harry", harryMixed)]
    scenes := [("Great Hall", { name := "Great Hall", bookId := "b2"
                                lighting := some "candlelight" })]
    objects := [("wand", { name := "wand", bookId := "b2", materials := some "holly" })]
    defaultStyle := some "cinematic"
    createdAt := dt0, updatedAt := dt0 }

/-- The character refuting claim C6: `base_prompt` is set — to the empty
string — yet fragment generation falls through to attribute assembly. -/
def c6Char : CharacterProfile := { name := "A", bookId := "b", basePrompt := some "" }

/-- Character with a non-empty fixed base prompt, for the C6 witness. -/
def c6CharW : CharacterProfile :=
  { name := "Luna", bookId := "b", hair := some "red", basePrompt := some "fixed luna look" }

/-- Scene with a non-empty fixed base prompt, for the C6 witness. -/
def c6SceneW : SceneContext :=
  { name := "Hall", bookId := "b", lighting := some "dim", basePrompt := some "fixed hall look" }

/-- Object with a non-empty fixed base prompt, for the C6 witness. -/
def c6ObjW : ObjectContext :=
  { name := "wand", bookId := "b", materials := some "oak", basePrompt := some "fixed wand look" }

/-- No two adjacent whitespace characters: the relation whose `Chain'`
states "the string contains no repeated whitespace". -/
def noWsPair (x y : Char) : Prop := ¬(isPyWs x = true ∧ isPyWs y = true)

/-- A parameter bag exercising all nine claimed directives, for the C8
witness: the niji version is dropped, quality 2 is kept, stylize 100 and
chaos 0 are omitted as defaults. -/
def mjWitnessParams : MJParams :=
  { aspect := some "wide", version := some "niji", quality := some "2"
    stylize := some "100", chaos := some 0, seed := some "42"
    sref := some "https://s.example/a.png", cref := some "https://s.example/b.png"
    negative := some "blurry, text" }

/-! ## Helper lemmas -/

theorem pyStrip_length_le (l : List Char) : (pyStrip l).length ≤ l.length := by
  unfold pyStrip
  calc ((l.dropWhile isPyWs).reverse.dropWhile isPyWs).reverse.length
      = ((l.dropWhile isPyWs).reverse.dropWhile isPyWs).length := List.length_reverse _
    _ ≤ (l.dropWhile isPyWs).reverse.length := (List.dropWhile_sublist _).length_le
    _ = (l.dropWhile isPyWs).length := List.length_reverse _
    _ ≤ l.length := (List.dropWhile_sublist _).length_le

theorem truncList_length_le (maxLen : Nat) (p : List Char) :
    (truncList maxLen p).length ≤ maxLen := by
  unfold truncList
  split
  · assumption
  · have htake : (p.take maxLen).length ≤ maxLen := by
      simpa using Nat.min_le_left maxLen p.length
    split
    · exact le_trans (pyStrip_length_le _)
        (le_trans (List.take_sublist _ _).length_le htake)
    · split
      · exact le_trans (pyStrip_length_le _)
          (le_trans (List.take_sublist _ _).length_le htake)
      · exact le_trans (pyStrip_length_le _) htake

theorem truncList_of_le (maxLen : Nat) (p : List Char) (h : p.length ≤ maxLen) :
    truncList maxLen p = p := by
  unfold truncList
  simp [h]

theorem lastOccurrence_cons (c a : Char) (t : List Char) :
    lastOccurrence c (a :: t) =
      match lastOccurrence c t with
      | some i => some (i + 1)
      | none => if a = c then some 0 else none := by
  unfold lastOccurrence
  rw [List.length_cons, List.range_succ_eq_map, List.filter_cons, List.filter_map]
  have hcomp :
      ((List.range t.length).filter
        ((fun i => decide ((a :: t).get? i = some c)) ∘ Nat.succ)) =
      ((List.range t.length).filter (fun i => decide (t.get? i = some c))) := by
    apply List.filter_congr
    intro i _
    simp [Function.comp, List.get?_cons_succ]
  rw [hcomp]
  set L := (List.range t.length).filter (fun i => decide (t.get? i = some c)) with hL
  rcases hcase : L.getLast? with _ | i
  · have hLnil : L = [] := by simpa using hcase
    rw [hLnil]
    by_cases hac : a = c
    · simp [hac]
    · simp [hac]
  · have hM : (L.map Nat.succ).getLast? = some (i + 1) := by
      rw [List.getLast?_map, hcase]; rfl
    by_cases hac : a = c
    · rw [if_pos (by simp [hac]), List.getLast?_cons, hM]
      simp
    · rw [if_neg (by simp [hac]), hM]

theorem lastIdxOf_eq_lastOccurrence (c : Char) (l : List Char) :
    lastIdxOf c l = lastOccurrence c l := by
  induction l with
  | nil => rfl
  | cons a t ih =>
    rw [lastOccurrence_cons]
    unfold lastIdxOf
    rw [ih]

theorem specCutCond_eq_cutCond (c : Char) (l : List Char) (num maxLen : Nat) :
    specCutCond c l num maxLen = cutCond (lastIdxOf c l) num maxLen := by
  unfold specCutCond cutCond
  rw [lastIdxOf_eq_lastOccurrence]

theorem truncList_eq_sharedStripped (maxLen : Nat) (p : List Char)
    (h : maxLen < p.length) :
    truncList maxLen p = sharedCutSpecStripped maxLen p := by
  unfold truncList sharedCutSpecStripped
  rw [if_neg (Nat.not_le.mpr h)]
  simp only [specCutCond_eq_cutCond, lastIdxOf_eq_lastOccurrence]

/-- C1 (amended): for every generator strategy and every prompt longer
than its `max_prompt_length`, `truncate` computes exactly the shared
algorithm of the specification — prefix of length `max`, cut at the last
comma past 70% of `max`, else at the last space past 80% of `max`, else
the hard cut — with the selected cut additionally stripped of leading and
trailing whitespace, which the claim as stated omits. -/
theorem truncate_matches_shared_algorithm_stripped :
    ∀ cfg ∈ generatorConfigs, ∀ p : String,
      cfg.maxPromptLength < p.length →
      truncate cfg.maxPromptLength p =
        (sharedCutSpecStripped cfg.maxPromptLength p.data).asString := by
  intro cfg _ p hp
  unfold truncate
  rw [truncList_eq_sharedStripped cfg.maxPromptLength p.data hp]

set_option maxRecDepth 40000 in
/-- C1 witness: the Stable Diffusion strategy (`max_prompt_length = 380`)
applied to the 381-character prompt `c1Prompt`. -/
theorem truncate_matches_shared_algorithm_stripped_witness :
    sdConfig ∈ generatorConfigs
    ∧ sdConfig.maxPromptLength < (List.asString c1Prompt).length
    ∧ truncate sdConfig.maxPromptLength (List.asString c1Prompt) =
        (sharedCutSpecStripped sdConfig.maxPromptLength
          (List.asString c1Prompt).data).asString :=
  ⟨by simp [generatorConfigs], by decide,
   truncate_matches_shared_algorithm_stripped sdConfig (by simp [generatorConfigs])
     (List.asString c1Prompt) (by decide)⟩

set_option maxRecDepth 100000 in
/-- C1 counterexample: on the 381-character prompt `c1Prompt` the Stable
Diffusion strategy's `truncate` does not return the claimed unstripped
shared-algorithm result: no comma or space of the 380-character prefix
passes the 70%/80% guards, the claimed algorithm hard-cuts to the whole
prefix (380 characters, with its leading space), while the code
additionally strips and returns 379 characters. -/
theorem truncate_claim_counterexample :
    sdConfig.maxPromptLength < (List.asString c1Prompt).length
    ∧ truncate sdConfig.maxPromptLength (List.asString c1Prompt) ≠
        (sharedCutSpec sdConfig.maxPromptLength c1Prompt).asString := by
  constructor
  · decide
  · decide

/-- C2: for every generator strategy, truncation always returns a string
within the model's `max_prompt_length`, and returns prompts already
within the limit unchanged. -/
theorem truncate_length_bound_and_identity :
    ∀ cfg ∈ generatorConfigs, ∀ p : String,
      (truncate cfg.maxPromptLength p).length ≤ cfg.maxPromptLength
      ∧ (p.length ≤ cfg.maxPromptLength → truncate cfg.maxPromptLength p = p) := by
  intro cfg _ p
  constructor
  · exact truncList_length_le cfg.maxPromptLength p.data
  · intro hp
    unfold truncate
    rw [truncList_of_le cfg.maxPromptLength p.data hp]
    rfl

/-- C2 witness: the DALL-E strategy (`max_prompt_length = 4000`) on the
short prompt `"hello"`. -/
theorem truncate_length_bound_and_identity_witness :
    dalleConfig ∈ generatorConfigs
    ∧ "hello".length ≤ dalleConfig.maxPromptLength
    ∧ (truncate dalleConfig.maxPromptLength "hello").length ≤ dalleConfig.maxPromptLength
    ∧ truncate dalleConfig.maxPromptLength "hello" = "hello" :=
  ⟨by simp [generatorConfigs], by decide,
   (truncate_length_bound_and_identity dalleConfig (by simp [generatorConfigs]) "hello").1,
   (truncate_length_bound_and_identity dalleConfig (by simp [generatorConfigs]) "hello").2
     (by decide)⟩

theorem natFloor_three_fifths (n : Nat) :
    Nat.floor ((3 : ℚ) / 5 * n) = 3 * n / 5 := by
  rw [div_mul_eq_mul_div]
  rw [show ((3 : ℚ) * n) = ((3 * n : Nat) : ℚ) by push_cast; ring]
  rw [show (5 : ℚ) = ((5 : Nat) : ℚ) by norm_num]
  rw [Nat.floor_div_nat, Nat.floor_natCast]

theorem joinComma_take_one (l : List String) :
    joinComma (l.take 1) = l.headD "" := by
  cases l with
  | nil => rfl
  | cons x t => rfl

/-- C3 (amended): for every preset map, style id, prompt and intensity,
`apply_style` keeps suffix segments exactly per the intensity bands —
with band 2 (`0.5 ≤ intensity < 0.8`) keeping the first
`max(2, floor(0.6 × partCount))` segments (the code's `int(...)`
truncation), not the claimed `ceil`; intensity ≥ 0.8 keeps the full
suffix, `0.3 ≤ intensity < 0.5` keeps `min(3, partCount)` segments, and
intensity < 0.3 keeps exactly the first segment. -/
theorem apply_style_banding_floor :
    ∀ (presets : List (String × StylePreset)) (prompt sid : String) (intensity : ℚ),
      applyStyle presets prompt sid intensity =
        applyStyleSpec presets prompt sid intensity := by
  intro presets prompt sid intensity
  unfold applyStyle applyStyleSpec bandKeepCount
  cases assocFind sid presets with
  | none => rfl
  | some style =>
    simp only [natFloor_three_fifths]
    split_ifs <;> simp_all [joinComma_take_one]

set_option maxRecDepth 20000 in
/-- C3 counterexample: the builtin `"impressionism"` preset has six
comma-separated suffix segments; at intensity 0.5 the code keeps
`max(2, int(6 · 0.6)) = 3` of them, while the claim's
`max(2, ceil(6 · 0.6)) = 4` would keep a fourth (`"vibrant colors"`), so
`apply_style` differs from the claimed banding at this input. -/
theorem apply_style_claim_counterexample :
    assocFind "impressionism" builtinPresetsSample = some impressionismPreset
    ∧ applyStyle builtinPresetsSample "portrait of a woman" "impressionism" (1/2) ≠
        applyStyleClaimed builtinPresetsSample "portrait of a woman" "impressionism" (1/2) := by
  have hfind : assocFind "impressionism" builtinPresetsSample = some impressionismPreset := by
    decide
  refine ⟨hfind, ?_⟩
  have c1 : ((1/2 : ℚ) ≥ 4/5) = False := eq_false (by norm_num)
  have c2 : ((1/2 : ℚ) ≥ 1/2) = True := eq_true (by norm_num)
  have hlen : (splitSepStr ", " impressionismPreset.promptSuffixText).length = 6 := by
    decide
  have hceil : ((⌈(18 : ℚ) / 5⌉).toNat) = 4 := by
    rw [show (⌈(18 : ℚ) / 5⌉ : ℤ) = 4 by rw [Int.ceil_eq_iff] ; norm_num]
    rfl
  unfold applyStyle applyStyleClaimed bandKeepCountClaimed
  simp only [hfind, c1, c2, if_false, if_true, hlen]
  norm_num [hceil]
  decide

/-- C5 (amended): the compatibility test accepts exactly the pairs that
match case-insensitively, or whose token sets have an empty union (the
code's `total == 0` early acceptance, which the claimed Jaccard formula
leaves undefined), or whose token-set Jaccard similarity exceeds 0.5; and
on the specification's own example, `"black hair"` vs `"blonde hair"`
(similarity 1/3) is incompatible. -/
theorem are_compatible_characterization :
    (∀ v1 v2 : String, areCompatible v1 v2 = true ↔
      (strLower v1 = strLower v2 ∨ tokenTotal v1 v2 = 0 ∨
        ((tokenOverlap v1 v2 : ℚ) / (tokenTotal v1 v2) > 1/2)))
    ∧ areCompatible "black hair" "blonde hair" = false := by
  constructor
  · intro v1 v2
    unfold areCompatible
    split_ifs with h1 h2
    · simp [h1]
    · simp [h1, h2]
    · simp [h1, h2]
  · unfold areCompatible
    rw [if_neg (by decide), if_neg (by decide)]
    rw [show tokenOverlap "black hair" "blonde hair" = 1 from by decide,
        show tokenTotal "black hair" "blonde hair" = 3 from by decide]
    exact decide_eq_false (by norm_num)

/-- C5 counterexample: the values `""` and `" "` are not equal
case-insensitively and their token-set Jaccard similarity does not exceed
0.5 (both token sets are empty), yet `_are_compatible` returns true via
its `total == 0` branch — so the claimed if-and-only-if fails. -/
theorem are_compatible_claim_counterexample :
    areCompatible "" " " = true
    ∧ strLower "" ≠ strLower " "
    ∧ ¬((tokenOverlap "" " " : ℚ) / (tokenTotal "" " ") > 1/2) := by
  refine ⟨?_, by decide, ?_⟩
  · unfold areCompatible
    rw [if_neg (by decide), if_pos (by decide)]
  · rw [show tokenOverlap "" " " = 0 from by decide,
        show tokenTotal "" " " = 0 from by decide]
    norm_num

/-- C6 (amended): for character, scene and object profiles alike, a
`basePrompt` that is set to a non-empty string is returned verbatim by
fragment generation, regardless of every other attribute; the Python
truthiness test means an empty-string `basePrompt` is instead ignored. -/
theorem base_prompt_fragment_verbatim :
    (∀ (c : CharacterProfile) (bp : String),
        c.basePrompt = some bp → bp ≠ "" → c.toPromptFragment = bp)
    ∧ (∀ (s : SceneContext) (bp : String),
        s.basePrompt = some bp → bp ≠ "" → s.toPromptFragment = bp)
    ∧ (∀ (o : ObjectContext) (bp : String),
        o.basePrompt = some bp → bp ≠ "" → o.toPromptFragment = bp) := by
  refine ⟨?_, ?_, ?_⟩
  · intro c bp h hne
    unfold CharacterProfile.toPromptFragment
    rw [h]
    simp [optTruthy, hne]
  · intro s bp h hne
    unfold SceneContext.toPromptFragment
    rw [h]
    simp [optTruthy, hne]
  · intro o bp h hne
    unfold ObjectContext.toPromptFragment
    rw [h]
    simp [optTruthy, hne]

/-- C6 witness: profiles of all three kinds with non-empty fixed base
prompts, whose fragments are those prompts verbatim. -/
theorem base_prompt_fragment_verbatim_witness :
    c6CharW.basePrompt = some "fixed luna look"
    ∧ ("fixed luna look" : String) ≠ ""
    ∧ c6CharW.toPromptFragment = "fixed luna look"
    ∧ c6SceneW.toPromptFragment = "fixed hall look"
    ∧ c6ObjW.toPromptFragment = "fixed wand look" :=
  ⟨rfl, by decide,
   base_prompt_fragment_verbatim.1 c6CharW "fixed luna look" rfl (by decide),
   base_prompt_fragment_verbatim.2.1 c6SceneW "fixed hall look" rfl (by decide),
   base_prompt_fragment_verbatim.2.2 c6ObjW "fixed wand look" rfl (by decide)⟩

/-- C6 counterexample: a character whose `base_prompt` is set — to the
empty string — is not returned verbatim: attribute assembly produces the
name `"A"` instead of `""`. -/
theorem base_prompt_claim_counterexample :
    c6Char.basePrompt = some "" ∧ c6Char.toPromptFragment ≠ "" :=
  ⟨rfl, by decide⟩

theorem find_ci_first {α : Type} (l : List (String × α)) (N Q : String) (p : α)
    (hnodup : (l.map Prod.fst).Nodup)
    (hmem : (N, p) ∈ l)
    (honly : ∀ pr ∈ l, pr.1 ≠ N → strLower pr.1 ≠ strLower N)
    (hq : strLower Q = strLower N) :
    l.find? (fun pr => strLower pr.1 = strLower Q) = some (N, p) := by
  induction l with
  | nil => cases hmem
  | cons hd tl ih =>
    rcases List.mem_cons.mp hmem with heq | hmem'
    · subst heq
      exact List.find?_cons_of_pos _ (by simp [hq])
    · have hd1ne : hd.1 ≠ N := by
        intro h
        have hkey : N ∈ tl.map Prod.fst := List.mem_map_of_mem Prod.fst hmem'
        rw [List.map_cons, List.nodup_cons] at hnodup
        exact hnodup.1 (h ▸ hkey)
      have hcond : strLower hd.1 ≠ strLower Q := by
        rw [hq]
        exact honly hd (List.mem_cons_self hd tl) hd1ne
      rw [List.find?_cons_of_neg _ (by simpa using hcond)]
      refine ih ?_ hmem' ?_
      · rw [List.map_cons, List.nodup_cons] at hnodup
        exact hnodup.2
      · intro pr hpr hne
        exact honly pr (List.mem_cons_of_mem hd hpr) hne

/-- C10 (amended): when a context stores a profile under key `N`, no
other stored key equals `N` case-insensitively, and the query `Q` equals
`N` case-insensitively while differing from it in case, then lookup finds
the profile (case-insensitive scan) but removal reports `False` and
leaves the context untouched (exact-key test).  Without the
no-other-matching-key proviso the claim as stated is refuted by
`get_remove_claim_counterexample`. -/
theorem get_is_ci_remove_is_exact :
    ∀ (ctx : BookContext) (N Q : String) (p : CharacterProfile) (now : PyDateTime),
      (ctx.characters.map Prod.fst).Nodup →
      (N, p) ∈ ctx.characters →
      (∀ pr ∈ ctx.characters, pr.1 ≠ N → strLower pr.1 ≠ strLower N) →
      strLower Q = strLower N → Q ≠ N →
      ctx.getCharacter Q = some p ∧ ctx.removeCharacter Q now = (false, ctx) := by
  intro ctx N Q p now hnodup hmem honly hq hne
  constructor
  · unfold BookContext.getCharacter
    rw [find_ci_first ctx.characters N Q p hnodup hmem honly hq]
    rfl
  · unfold BookContext.removeCharacter
    have hany : ctx.characters.any (fun pr => pr.1 = Q) = false := by
      rw [List.any_eq_false]
      intro pr hpr h
      have hprQ : pr.1 = Q := by simpa using h
      by_cases hprN : pr.1 = N
      · exact hne (hprQ ▸ hprN)
      · exact honly pr hpr hprN (hprQ ▸ hq)
    rw [if_neg (by simp [hany])]

/-- C10 witness: a context holding only `("Harry", harryMixed)`; querying
`"HARRY"` finds the profile but removes nothing. -/
theorem get_is_ci_remove_is_exact_witness :
    ctx10W.getCharacter "HARRY" = some harryMixed
    ∧ ctx10W.removeCharacter "HARRY" dt0 = (false, ctx10W) :=
  get_is_ci_remove_is_exact ctx10W "Harry" "HARRY" harryMixed dt0
    (by decide) (by decide) (by decide) (by decide) (by decide)

/-- C10 counterexample: `ctx10` stores `harryMixed` under `"Harry"` and a
different profile under the case-insensitively equal key `"HARRY"`.  With
`N = "Harry"`, `Q = "HARRY"` the claim as stated predicts
`get_character(Q) = harryMixed` and `remove_character(Q) = False`, but
the scan returns the other profile first and the removal succeeds. -/
theorem get_remove_claim_counterexample :
    ("Harry", harryMixed) ∈ ctx10.characters
    ∧ strLower "HARRY" = strLower "Harry"
    ∧ "HARRY" ≠ "Harry"
    ∧ ctx10.getCharacter "HARRY" ≠ some harryMixed
    ∧ (ctx10.removeCharacter "HARRY" dt0).1 ≠ false := by
  refine ⟨by decide, by decide, by decide, by decide, by decide⟩

theorem foldl_dictSet_append {α : Type} (l : List (String × α)) :
    ∀ acc : List (String × α),
      (l.map Prod.fst).Nodup →
      (∀ k ∈ l.map Prod.fst, ∀ pr ∈ acc, pr.1 ≠ k) →
      l.foldl (fun m p => dictSet m p.1 p.2) acc = acc ++ l := by
  induction l with
  | nil => intro acc _ _; simp
  | cons hd tl ih =>
    intro acc hnodup hdisj
    rw [List.map_cons, List.nodup_cons] at hnodup
    have hany : acc.any (fun p => p.1 = hd.1) = false := by
      rw [List.any_eq_false]
      intro pr hpr
      simpa using hdisj hd.1 (by simp) pr hpr
    have hstep : dictSet acc hd.1 hd.2 = acc ++ [(hd.1, hd.2)] := by
      unfold dictSet
      rw [if_neg (by simp [hany])]
    rw [List.foldl_cons, hstep, ih (acc ++ [(hd.1, hd.2)]) hnodup.2 ?_]
    · rw [List.append_assoc]
      rfl
    · intro k hk pr hpr
      rcases List.mem_append.mp hpr with h | h
      · exact hdisj k (by simp [hk]) pr h
      · have hpr' : pr = (hd.1, hd.2) := by simpa using h
        rw [hpr']
        intro hcontr
        exact hnodup.1 (hcontr ▸ hk)

/-- C9: serializing a `BookContext` to its cache representation and
deserializing reproduces a structurally equal context — given the dict
invariant that entity keys do not repeat (a Python dict cannot hold two
equal keys). -/
theorem book_context_round_trip :
    ∀ ctx : BookContext,
      (ctx.characters.map Prod.fst).Nodup →
      (ctx.scenes.map Prod.fst).Nodup →
      (ctx.objects.map Prod.fst).Nodup →
      BookContext.fromDict (BookContext.toDict ctx) = ctx := by
  intro ctx h1 h2 h3
  unfold BookContext.fromDict BookContext.toDict
  rw [foldl_dictSet_append ctx.characters [] h1 (by simp),
      foldl_dictSet_append ctx.scenes [] h2 (by simp),
      foldl_dictSet_append ctx.objects [] h3 (by simp)]
  simp

/-- C9 witness: the populated context `ctx9W` (two characters, one scene,
one object) survives the cache round trip unchanged. -/
theorem book_context_round_trip_witness :
    BookContext.fromDict (BookContext.toDict ctx9W) = ctx9W :=
  book_context_round_trip ctx9W (by decide) (by decide) (by decide)

theorem wsPassGo_true_head (l : List Char) :
    ∀ c, (wsPassGo true l).head? = some c → isPyWs c = false := by
  induction l with
  | nil => intro c h; cases h
  | cons a t ih =>
    intro c h
    unfold wsPassGo at h
    by_cases ha : isPyWs a = true
    · rw [if_pos ha, if_pos rfl] at h
      exact ih c h
    · rw [if_neg ha] at h
      cases h
      simpa using ha

theorem chain'_wsPassGo (b : Bool) (l : List Char) :
    List.Chain' noWsPair (wsPassGo b l) := by
  induction l generalizing b with
  | nil => exact List.chain'_nil
  | cons a t ih =>
    unfold wsPassGo
    by_cases ha : isPyWs a = true
    · rw [if_pos ha]
      cases b with
      | true => rw [if_pos rfl]; exact ih true
      | false =>
        rw [if_neg (by simp)]
        rw [List.chain'_cons']
        refine ⟨?_, ih true⟩
        intro y hy
        intro hpair
        rw [wsPassGo_true_head t y hy] at hpair
        exact absurd hpair.2 (by simp)
    · rw [if_neg ha]
      rw [List.chain'_cons']
      refine ⟨?_, ih false⟩
      intro y _
      intro hpair
      exact ha hpair.1

theorem chain'_dropWhile {R : Char → Char → Prop} (q : Char → Bool)
    (l : List Char) (h : List.Chain' R l) : List.Chain' R (l.dropWhile q) := by
  induction l with
  | nil => simpa using h
  | cons a t ih =>
    rw [List.dropWhile_cons]
    by_cases ha : q a = true
    · rw [if_pos ha]
      exact ih ((List.chain'_cons'.mp h).2)
    · rw [if_neg ha]
      exact h

theorem chain'_noWsPair_reverse (l : List Char) (h : List.Chain' noWsPair l) :
    List.Chain' noWsPair l.reverse := by
  rw [List.chain'_reverse]
  refine h.imp ?_
  intro a b hab
  intro hpair
  exact hab ⟨hpair.2, hpair.1⟩

theorem stripEdges_chain_noWsPair (x : List Char) (h : List.Chain' noWsPair x) :
    List.Chain' noWsPair (stripEdges x) := by
  unfold stripEdges
  exact chain'_noWsPair_reverse _
    (chain'_dropWhile _ _ (chain'_noWsPair_reverse _ (chain'_dropWhile _ _ h)))

theorem dropWhile_head?_not (q : Char → Bool) (l : List Char) (c : Char)
    (h : (l.dropWhile q).head? = some c) : q c = false := by
  induction l with
  | nil => cases h
  | cons a t ih =>
    rw [List.dropWhile_cons] at h
    by_cases ha : q a = true
    · rw [if_pos ha] at h
      exact ih h
    · rw [if_neg ha] at h
      cases h
      simpa using ha

theorem dropWhile_getLast?_of_ne (q : Char → Bool) (l : List Char)
    (h : l.dropWhile q ≠ []) : (l.dropWhile q).getLast? = l.getLast? := by
  induction l with
  | nil => simp at h
  | cons a t ih =>
    rw [List.dropWhile_cons]
    rw [List.dropWhile_cons] at h
    by_cases ha : q a = true
    · rw [if_pos ha] at h ⊢
      have ht : t ≠ [] := by
        intro hnil
        rw [hnil] at h
        simp at h
      rw [ih h, List.getLast?_cons]
      rcases hx : t.getLast? with _ | x
      · exact absurd (by simpa using hx) ht
      · simp [hx]
    · rw [if_neg ha]

theorem stripEdges_head?_not (x : List Char) (c : Char)
    (h : (stripEdges x).head? = some c) : isSpaceComma c = false := by
  unfold stripEdges at h
  rw [List.head?_reverse] at h
  have hne : ((x.dropWhile isSpaceComma).reverse.dropWhile isSpaceComma) ≠ [] := by
    intro hnil
    rw [hnil] at h
    cases h
  rw [dropWhile_getLast?_of_ne isSpaceComma _ hne] at h
  rw [List.getLast?_reverse] at h
  exact dropWhile_head?_not isSpaceComma _ c h

theorem stripEdges_getLast?_not (x : List Char) (c : Char)
    (h : (stripEdges x).getLast? = some c) : isSpaceComma c = false := by
  unfold stripEdges at h
  rw [List.getLast?_reverse] at h
  exact dropWhile_head?_not isSpaceComma _ c h

theorem stripEdges_headD (x : List Char) :
    isSpaceComma ((stripEdges x).headD 'x') = false := by
  rcases hh : (stripEdges x).head? with _ | c
  · rw [List.headD_eq_head?, hh]
    rfl
  · rw [List.headD_eq_head?, hh]
    exact stripEdges_head?_not x c hh

theorem stripEdges_getLastD (x : List Char) :
    isSpaceComma ((stripEdges x).getLastD 'x') = false := by
  rcases hh : (stripEdges x).getLast? with _ | c
  · rw [List.getLastD_eq_getLast?, hh]
    rfl
  · rw [List.getLastD_eq_getLast?, hh]
    exact stripEdges_getLast?_not x c hh

/-- C7 (amended): template filling substitutes the merged variables and
strips well-formed leftover placeholders, and its cleanup normalizes the
result so that it contains no repeated whitespace and neither starts nor
ends with a space or comma.  The comma cleanup, however, is a single
left-to-right `re.sub` pass (runs of three or more commas can leave a
repeated comma behind), and only `{name}`-shaped placeholders are
removed (a dangling brace survives) — see the counterexample. -/
theorem fill_template_normalized :
    ∀ (t : PromptTemplateM) (vars : List (String × String)) (ud : Bool),
      List.Chain' noWsPair (fillTemplate t vars ud).data
      ∧ isSpaceComma ((fillTemplate t vars ud).data.headD 'x') = false
      ∧ isSpaceComma ((fillTemplate t vars ud).data.getLastD 'x') = false := by
  intro t vars ud
  exact ⟨stripEdges_chain_noWsPair _ (chain'_wsPassGo false _),
         stripEdges_headD _, stripEdges_getLastD _⟩

set_option maxRecDepth 4000 in
/-- C7 counterexample: filling the template `x{a}, {b}, {c}, {d} {` with
empty values for all four placeholders yields `x, , {` — the result still
contains the repeated comma `", ,"` (the single comma-collapsing pass
stopped scanning past its first replacement) and a literal left brace
(the dangling `{` matches no `{name}` pattern), refuting the claim that
no repeated commas and no literal braces remain. -/
theorem fill_template_claim_counterexample :
    (fillTemplate c7Template c7Vars true).data = ['x', ',', ' ', ',', ' ', lbrace]
    ∧ lbrace ∈ (fillTemplate c7Template c7Vars true).data
    ∧ [',', ' ', ','] <:+: (fillTemplate c7Template c7Vars true).data := by
  refine ⟨by decide, by decide, by decide⟩

theorem optToList_filterMap (o : Option String) (rest : List (Option String)) :
    (o :: rest).filterMap id = o.toList ++ rest.filterMap id := by
  cases o <;> simp

theorem mjImagePart_of_none (ps : MJParams) (h : ps.imageUrl = none) :
    mjImagePart ps = [] := by
  unfold mjImagePart
  rw [h]

theorem mjArPart_toList (ps : MJParams) (h : ps.ar = none) :
    mjArPart ps =
      (ps.aspect.map (fun a => "--ar " ++ assocFindD mjAspectRatios a a)).toList := by
  unfold mjArPart
  cases ps.aspect <;> simp [h]

theorem mjVersionPart_toList (ps : MJParams) :
    mjVersionPart ps =
      (ps.version.bind (fun v =>
        if strLower v = "niji" ∨ strLower v = "niji6" then none
        else some ("--v " ++ v))).toList := by
  unfold mjVersionPart
  cases ps.version with
  | none => rfl
  | some v =>
    by_cases hv : strLower v = "niji" ∨ strLower v = "niji6" <;> simp [hv]

theorem mjQualityPart_toList (ps : MJParams) :
    mjQualityPart ps =
      (ps.quality.bind (fun q => if q = "1" then none else some ("--q " ++ q))).toList := by
  unfold mjQualityPart
  cases ps.quality with
  | none => rfl
  | some q => by_cases hq : q = "1" <;> simp [hq]

theorem mjStylizePart_toList (ps : MJParams) :
    mjStylizePart ps =
      (ps.stylize.bind (fun s => if s = "100" then none else some ("--s " ++ s))).toList := by
  unfold mjStylizePart
  cases ps.stylize with
  | none => rfl
  | some s => by_cases hs : s = "100" <;> simp [hs]

theorem mjChaosPart_toList (ps : MJParams) :
    mjChaosPart ps =
      (ps.chaos.bind (fun c => if c ≤ 0 then none else some ("--c " ++ toString c))).toList := by
  unfold mjChaosPart
  cases ps.chaos with
  | none => rfl
  | some c =>
    by_cases hc : c ≤ 0
    · simp [hc, not_lt.mpr hc]
    · simp [hc, lt_of_not_le hc]

theorem mjWeirdPart_of_none (ps : MJParams) (h : ps.weird = none) :
    mjWeirdPart ps = [] := by
  unfold mjWeirdPart
  rw [h]

theorem mjSeedPart_toList (ps : MJParams) :
    mjSeedPart ps = (ps.seed.map (fun s => "--seed " ++ s)).toList := by
  unfold mjSeedPart
  cases ps.seed <;> rfl

theorem mjSrefPart_toList (ps : MJParams) (h : ps.sw = none) :
    mjSrefPart ps = (ps.sref.map (fun r => "--sref " ++ r)).toList := by
  unfold mjSrefPart
  cases ps.sref <;> simp [h]

theorem mjCrefPart_toList (ps : MJParams) (h : ps.cw = none) :
    mjCrefPart ps = (ps.cref.map (fun r => "--cref " ++ r)).toList := by
  unfold mjCrefPart
  cases ps.cref <;> simp [h]

theorem mjNoPart_toList (ps : MJParams) (h : ps.noList = none) :
    mjNoPart ps =
      (ps.negative.bind (fun n => if n = "" then none else some ("--no " ++ n))).toList := by
  unfold mjNoPart
  cases ps.negative with
  | none => simp [optTruthy, h]
  | some n =>
    by_cases hn : n = ""
    · simp [optTruthy, hn, h]
    · simp [optTruthy, hn]

theorem mjTilePart_of_false (ps : MJParams) (h : ps.tile = false) :
    mjTilePart ps = [] := by
  unfold mjTilePart
  rw [h]
  rfl

theorem mjRepeatPart_of_none (ps : MJParams) (h : ps.repeatCount = none) :
    mjRepeatPart ps = [] := by
  unfold mjRepeatPart
  rw [h]

theorem mjPresetPart_of_none (ps : MJParams) (h : ps.stylePreset = none) :
    mjPresetPart ps = [] := by
  unfold mjPresetPart
  rw [h]

/-- C8 (amended): for every prompt and every parameter bag using only the
nine claimed directive keys, `format_prompt` appends the directives in
the fixed order aspect ratio, version, quality, stylize, chaos, seed,
style reference, character reference, negative list, omitting quality at
its default `"1"`, stylize at its default `"100"` and chaos when not
positive (default 0) — but it always emits `--v` for a supplied version
(other than the niji variants), including the default 6.1, which the
claim as stated says would be omitted. -/
theorem mj_format_matches_spec :
    ∀ (p : String) (ps : MJParams), ps.directivesOnly →
      mjFormatPrompt p ps = mjFormatSpec p ps := by
  intro p ps h
  obtain ⟨h1, h2, h3, h4, h5, h6, h7, h8, h9, h10⟩ := h
  unfold mjFormatPrompt mjFormatSpec mjDirectivesSpec
  rw [mjImagePart_of_none ps h1, mjArPart_toList ps h2, mjVersionPart_toList,
      mjQualityPart_toList, mjStylizePart_toList, mjChaosPart_toList,
      mjWeirdPart_of_none ps h3, mjSeedPart_toList, mjSrefPart_toList ps h4,
      mjCrefPart_toList ps h5, mjNoPart_toList ps h6, mjTilePart_of_false ps h7,
      mjRepeatPart_of_none ps h8, mjPresetPart_of_none ps h9, h10]
  simp [optToList_filterMap, List.append_assoc]

/-- C8 witness: a bag supplying all nine directives at once — the niji
version is dropped, stylize `"100"` and chaos 0 are omitted as defaults,
everything else is appended in the fixed order. -/
theorem mj_format_matches_spec_witness :
    mjFormatPrompt "a castle at dawn" mjWitnessParams =
      mjFormatSpec "a castle at dawn" mjWitnessParams :=
  mj_format_matches_spec "a castle at dawn" mjWitnessParams
    ⟨rfl, rfl, rfl, rfl, rfl, rfl, rfl, rfl, rfl, rfl⟩

/-- C8 counterexample: with only `version = "6.1"` supplied — exactly the
model's known default — the code still appends `--v 6.1`, while the claim
as stated (omit every directive whose value equals the default) would
leave the prompt bare. -/
theorem mj_format_claim_counterexample :
    ("version", "6.1") ∈ mjDefaultParameters
    ∧ c8Params.version = some "6.1"
    ∧ mjFormatPrompt "a castle" c8Params = "a castle --v 6.1"
    ∧ mjFormatClaimed "a castle" c8Params = "a castle"
    ∧ mjFormatPrompt "a castle" c8Params ≠ mjFormatClaimed "a castle" c8Params := by
  refine ⟨by decide, rfl, by decide, by decide, by decide⟩

theorem combineStep_eq (presets : List (String × StylePreset))
    (acc : List String × List String) (z : String × ℚ) :
    combineStep presets acc z =
      (acc.1 ++ specContribution presets z, acc.2 ++ (specPrefixOf presets z).toList) := by
  unfold combineStep specContribution specPrefixOf
  cases assocFind z.1 presets with
  | none => simp
  | some style =>
    by_cases hw : z.2 < 3/20
    · simp [hw]
    · by_cases hp : style.promptPrefixText ≠ "" ∧ z.2 > 3/10
      · simp [hw, hp]
      · simp [hw, hp]

theorem filterMap_cons_toList (g : (String × ℚ) → Option String)
    (z : String × ℚ) (t : List (String × ℚ)) :
    List.filterMap g (z :: t) = (g z).toList ++ List.filterMap g t := by
  cases hz : g z <;> simp [List.filterMap_cons, hz]

theorem foldl_combineStep (presets : List (String × StylePreset))
    (zs : List (String × ℚ)) :
    ∀ acc : List String × List String,
      zs.foldl (combineStep presets) acc =
        (acc.1 ++ zs.flatMap (specContribution presets),
         acc.2 ++ zs.filterMap (specPrefixOf presets)) := by
  induction zs with
  | nil => intro acc; simp
  | cons z t ih =>
    intro acc
    rw [List.foldl_cons, combineStep_eq, ih, List.flatMap_cons, filterMap_cons_toList]
    simp [List.append_assoc]

theorem dedupCIGo_eq_spec (l : List String) :
    ∀ seen : List String,
      dedupCIGo seen l = dedupCISpec (l.filter (fun y => strLower y ∉ seen)) := by
  induction l with
  | nil => intro seen; simp [dedupCIGo, dedupCISpec]
  | cons x rest ih =>
    intro seen
    unfold dedupCIGo
    by_cases hx : strLower x ∈ seen
    · rw [if_pos hx, List.filter_cons, if_neg (by simp [hx])]
      exact ih seen
    · rw [if_neg hx, List.filter_cons, if_pos (by simp [hx])]
      rw [ih (strLower x :: seen)]
      conv_rhs => rw [dedupCISpec]
      congr 1
      rw [List.filter_filter]
      congr 1
      apply List.filter_congr
      intro y _
      simp [List.mem_cons, not_or]

theorem dedupCIGo_nil_eq (l : List String) : dedupCIGo [] l = dedupCISpec l := by
  rw [dedupCIGo_eq_spec l []]
  congr 1
  apply List.filter_eq_self.mpr
  intro a _
  simp

theorem dedupCISpec_mem_bound :
    ∀ (n : Nat) (l : List String), l.length ≤ n → ∀ y ∈ dedupCISpec l, y ∈ l := by
  intro n
  induction n with
  | zero =>
    intro l hl y hy
    rw [List.length_eq_zero.mp (Nat.le_zero.mp hl)] at hy ⊢
    simpa [dedupCISpec] using hy
  | succ n ih =>
    intro l hl y hy
    cases l with
    | nil => simpa [dedupCISpec] using hy
    | cons x rest =>
      rw [dedupCISpec] at hy
      rcases List.mem_cons.mp hy with h | h
      · exact h ▸ List.mem_cons_self x rest
      · have hrest : rest.length ≤ n := by
          rw [List.length_cons] at hl
          exact Nat.succ_le_succ_iff.mp hl
        have hlen : (rest.filter (fun y => strLower y ≠ strLower x)).length ≤ n :=
          le_trans (List.length_filter_le _ _) hrest
        have := ih _ hlen y h
        exact List.mem_cons_of_mem x (List.mem_of_mem_filter this)

theorem dedupCISpec_pairwise_bound :
    ∀ (n : Nat) (l : List String), l.length ≤ n →
      List.Pairwise (fun a b => strLower a ≠ strLower b) (dedupCISpec l) := by
  intro n
  induction n with
  | zero =>
    intro l hl
    rw [List.length_eq_zero.mp (Nat.le_zero.mp hl)]
    simp [dedupCISpec]
  | succ n ih =>
    intro l hl
    cases l with
    | nil => simp [dedupCISpec]
    | cons x rest =>
      rw [dedupCISpec]
      have hrest : rest.length ≤ n := by
        rw [List.length_cons] at hl
        exact Nat.succ_le_succ_iff.mp hl
      have hlen : (rest.filter (fun y => strLower y ≠ strLower x)).length ≤ n :=
        le_trans (List.length_filter_le _ _) hrest
      refine List.pairwise_cons.mpr ⟨?_, ih _ hlen⟩
      intro y hy
      have hyf := dedupCISpec_mem_bound n _ hlen y hy
      have hne : strLower y ≠ strLower x := by simpa using List.of_mem_filter hyf
      intro hxy
      exact hne hxy.symm

theorem dedupCISpec_pairwise (l : List String) :
    List.Pairwise (fun a b => strLower a ≠ strLower b) (dedupCISpec l) :=
  dedupCISpec_pairwise_bound l.length l le_rfl

/-- C4: for every preset map, prompt, style-id list and weight list with a
non-zero total (Python divides by the sum, so a zero total is outside the
function's domain), `combine_styles` computes exactly the claimed
algorithm — weights normalized to sum to 1, styles below normalized
weight 0.15 contributing nothing, each surviving style contributing its
first `max(1, floor(partCount × weight × 2))` suffix segments, prefixes
included only above weight 0.3, segments de-duplicated case-insensitively
in first-seen order (so the kept segments are pairwise case-insensitively
distinct), and the result assembled as joined prefixes, original text,
joined unique segments. -/
theorem combine_styles_matches_spec :
    ∀ (presets : List (String × StylePreset)) (prompt : String)
      (styleIds : List String) (weights : List ℚ),
      weights.sum ≠ 0 →
      combineStyles presets prompt styleIds weights =
        combineStylesSpec presets prompt styleIds weights
      ∧ List.Pairwise (fun a b => strLower a ≠ strLower b)
          (dedupCISpec ((styleIds.zip (weights.map (· / weights.sum))).flatMap
            (specContribution presets))) := by
  intro presets prompt ids ws hsum
  refine ⟨?_, dedupCISpec_pairwise _⟩
  unfold combineStyles combineStylesSpec
  by_cases hids : ids = []
  · rw [if_pos hids, if_pos hids]
  · rw [if_neg hids, if_neg hids]
    simp only [foldl_combineStep, dedupCIGo_nil_eq, List.nil_append]

/-- C4 witness: combining `"impressionism"` (weight 3) and `"abstract"`
(weight 1): normalized weights 3/4 and 1/4 both survive, neither prefix
clears 0.3, and the contributions agree with the claimed algorithm. -/
theorem combine_styles_matches_spec_witness :
    combineStyles builtinPresetsSample "castle" ["impressionism", "abstract"]
        [3, 1] =
      combineStylesSpec builtinPresetsSample "castle" ["impressionism", "abstract"]
        [3, 1] :=
  (combine_styles_matches_spec builtinPresetsSample "castle"
    ["impressionism", "abstract"] [3, 1] (by norm_num)).1

end NovelVisions
